import Mathlib

/-!
Verification development for a Vulkan rendering application (single C++ source,
`main.cpp`).  The definitions below are a shallow embedding of the functions the
spec talks about: the image-layout transition engine, the swapchain parameter
selection, physical-device picking, the OBJ model loading/deduplication loop,
mipmap generation, and the per-frame scheduler `drawFrame`.  Machine integers
are modelled as `Nat`; Vulkan bit-flag constants keep their header values;
fallible paths (C++ `throw`) are modelled with `Except String`.  Float scalars
in the model loader are modelled as exact integers: `loadModel` performs no
arithmetic on them other than the texture-coordinate flip `1 - t`, and compares
them only for exact equality, so any type with decidable equality and a
subtraction represents the comparison behaviour faithfully.
-/

namespace VulkanTut

/-! ## Constants from the source -/

def MAX_FRAMES_IN_FLIGHT : Nat := 2

def UINT32_MAX : Nat := 4294967295

/-! ## Vulkan enums and bit constants (values from the Vulkan headers) -/

inductive VkFormat where
  | r8g8b8a8Srgb
  | b8g8r8a8Srgb
  | d32Sfloat
  | d32SfloatS8Uint
  | d24UnormS8Uint
  deriving DecidableEq, Repr

inductive VkImageLayout where
  | undefined
  | transferDstOptimal
  | transferSrcOptimal
  | shaderReadOnlyOptimal
  | colorAttachmentOptimal
  | depthStencilAttachmentOptimal
  | presentSrcKHR
  deriving DecidableEq, Repr

def VK_ACCESS_TRANSFER_WRITE_BIT : Nat := 4096
def VK_ACCESS_TRANSFER_READ_BIT : Nat := 2048
def VK_ACCESS_SHADER_READ_BIT : Nat := 32
def VK_ACCESS_DEPTH_STENCIL_ATTACHMENT_READ_BIT : Nat := 512
def VK_ACCESS_DEPTH_STENCIL_ATTACHMENT_WRITE_BIT : Nat := 1024

def VK_PIPELINE_STAGE_TOP_OF_PIPE_BIT : Nat := 1
def VK_PIPELINE_STAGE_TRANSFER_BIT : Nat := 4096
def VK_PIPELINE_STAGE_FRAGMENT_SHADER_BIT : Nat := 128
def VK_PIPELINE_STAGE_EARLY_FRAGMENT_TESTS_BIT : Nat := 256

def VK_IMAGE_ASPECT_COLOR_BIT : Nat := 1
def VK_IMAGE_ASPECT_DEPTH_BIT : Nat := 2
def VK_IMAGE_ASPECT_STENCIL_BIT : Nat := 4

/-- Embeds `hasStencilComponent` (main.cpp): true for the two depth formats
that carry a stencil channel. -/
def hasStencilComponent (format : VkFormat) : Bool :=
  format == VkFormat.d32SfloatS8Uint || format == VkFormat.d24UnormS8Uint

/-! ## Image Transition Engine (`transitionImageLayout`, main.cpp:2190-2287) -/

structure BarrierMasks where
  srcAccessMask : Nat
  dstAccessMask : Nat
  srcStage : Nat
  dstStage : Nat
  deriving DecidableEq, Repr

structure ImageMemoryBarrier where
  oldLayout : VkImageLayout
  newLayout : VkImageLayout
  aspectMask : Nat
  baseMipLevel : Nat
  levelCount : Nat
  srcAccessMask : Nat
  dstAccessMask : Nat
  deriving DecidableEq, Repr

inductive GpuCmd where
  | pipelineBarrier (srcStage dstStage : Nat) (barrier : ImageMemoryBarrier)
  deriving DecidableEq, Repr

/-- One `vkQueueSubmit` of a one-shot command buffer (`endSingleTimeCommands`). -/
structure Submission where
  cmds : List GpuCmd
  deriving DecidableEq, Repr

/-- Embeds the aspect-mask selection of `transitionImageLayout`: depth aspect
(plus stencil when the format has a stencil channel) for transitions into the
depth-stencil-attachment layout, color aspect otherwise. -/
def transitionAspectMask (format : VkFormat) (newLayout : VkImageLayout) : Nat :=
  if newLayout = VkImageLayout.depthStencilAttachmentOptimal then
    if hasStencilComponent format then
      VK_IMAGE_ASPECT_DEPTH_BIT ||| VK_IMAGE_ASPECT_STENCIL_BIT
    else
      VK_IMAGE_ASPECT_DEPTH_BIT
  else
    VK_IMAGE_ASPECT_COLOR_BIT

/-- Embeds the if/else-if chain of `transitionImageLayout` that maps an
(oldLayout, newLayout) pair to access masks and pipeline stages, throwing
`std::invalid_argument("unsupported layout transition!")` for any other pair. -/
def transitionMasks (oldLayout newLayout : VkImageLayout) : Except String BarrierMasks :=
  if oldLayout = VkImageLayout.undefined ∧ newLayout = VkImageLayout.transferDstOptimal then
    Except.ok ⟨0, VK_ACCESS_TRANSFER_WRITE_BIT,
      VK_PIPELINE_STAGE_TOP_OF_PIPE_BIT, VK_PIPELINE_STAGE_TRANSFER_BIT⟩
  else if oldLayout = VkImageLayout.transferDstOptimal ∧ newLayout = VkImageLayout.shaderReadOnlyOptimal then
    Except.ok ⟨VK_ACCESS_TRANSFER_WRITE_BIT, VK_ACCESS_SHADER_READ_BIT,
      VK_PIPELINE_STAGE_TRANSFER_BIT, VK_PIPELINE_STAGE_FRAGMENT_SHADER_BIT⟩
  else if oldLayout = VkImageLayout.undefined ∧ newLayout = VkImageLayout.depthStencilAttachmentOptimal then
    Except.ok ⟨0, VK_ACCESS_DEPTH_STENCIL_ATTACHMENT_READ_BIT ||| VK_ACCESS_DEPTH_STENCIL_ATTACHMENT_WRITE_BIT,
      VK_PIPELINE_STAGE_TOP_OF_PIPE_BIT, VK_PIPELINE_STAGE_EARLY_FRAGMENT_TESTS_BIT⟩
  else
    Except.error "unsupported layout transition!"

/-- Embeds `transitionImageLayout` (main.cpp:2190-2287).  The result is the
list of GPU submissions the call performs.  The C++ throws on the unsupported
pair before `vkCmdPipelineBarrier` and before `endSingleTimeCommands` (which
holds the only `vkQueueSubmit`), so the error case carries no submission.  On
success there is exactly one submission holding the single barrier scoped to
mip levels [0, mipLevels). -/
def transitionImageLayout (format : VkFormat) (oldLayout newLayout : VkImageLayout)
    (mipLevels : Nat) : Except String (List Submission) := do
  let aspect := transitionAspectMask format newLayout
  let masks ← transitionMasks oldLayout newLayout
  pure [⟨[GpuCmd.pipelineBarrier masks.srcStage masks.dstStage
    ⟨oldLayout, newLayout, aspect, 0, mipLevels, masks.srcAccessMask, masks.dstAccessMask⟩]⟩]

/-- Modelled from the spec: the set of supported transitions named in the
spec's transition table. -/
def supportedTransition (oldLayout newLayout : VkImageLayout) : Bool :=
  (oldLayout == VkImageLayout.undefined && newLayout == VkImageLayout.transferDstOptimal) ||
  (oldLayout == VkImageLayout.transferDstOptimal && newLayout == VkImageLayout.shaderReadOnlyOptimal) ||
  (oldLayout == VkImageLayout.undefined && newLayout == VkImageLayout.depthStencilAttachmentOptimal)

/-- Modelled from the spec: the documented {srcAccessMask, dstAccessMask,
srcStage, dstStage} tuple for each supported transition ("no prior access,
transfer-write becomes visible at transfer stage"; "transfer-write must
complete before fragment-stage shader-read"; "depth/stencil read-write becomes
visible at early-fragment-test stage").  Unsupported pairs get a junk tuple
that the theorem never consults. -/
def documentedMasks (oldLayout newLayout : VkImageLayout) : BarrierMasks :=
  match oldLayout, newLayout with
  | VkImageLayout.undefined, VkImageLayout.transferDstOptimal =>
      ⟨0, VK_ACCESS_TRANSFER_WRITE_BIT,
        VK_PIPELINE_STAGE_TOP_OF_PIPE_BIT, VK_PIPELINE_STAGE_TRANSFER_BIT⟩
  | VkImageLayout.transferDstOptimal, VkImageLayout.shaderReadOnlyOptimal =>
      ⟨VK_ACCESS_TRANSFER_WRITE_BIT, VK_ACCESS_SHADER_READ_BIT,
        VK_PIPELINE_STAGE_TRANSFER_BIT, VK_PIPELINE_STAGE_FRAGMENT_SHADER_BIT⟩
  | VkImageLayout.undefined, VkImageLayout.depthStencilAttachmentOptimal =>
      ⟨0, VK_ACCESS_DEPTH_STENCIL_ATTACHMENT_READ_BIT ||| VK_ACCESS_DEPTH_STENCIL_ATTACHMENT_WRITE_BIT,
        VK_PIPELINE_STAGE_TOP_OF_PIPE_BIT, VK_PIPELINE_STAGE_EARLY_FRAGMENT_TESTS_BIT⟩
  | _, _ => ⟨0, 0, 0, 0⟩

/-! ## Swapchain parameter selection (`chooseSwapExtent`, `createSwapChain`) -/

structure Extent2D where
  width : Nat
  height : Nat
  deriving DecidableEq, Repr

structure SurfaceCapabilities where
  currentExtent : Extent2D
  minImageExtent : Extent2D
  maxImageExtent : Extent2D
  minImageCount : Nat
  maxImageCount : Nat
  deriving DecidableEq, Repr

/-- Embeds `std::clamp(v, lo, hi)`. -/
def stdClamp (v lo hi : Nat) : Nat :=
  if v < lo then lo else if hi < v then hi else v

/-- Embeds `chooseSwapExtent` (main.cpp:772-794): return the surface's current
extent unless its width is the `uint32_t` maximum sentinel; otherwise clamp the
window framebuffer size into the surface's min/max image extent bounds. -/
def chooseSwapExtent (capabilities : SurfaceCapabilities)
    (framebufferWidth framebufferHeight : Nat) : Extent2D :=
  if capabilities.currentExtent.width ≠ UINT32_MAX then
    capabilities.currentExtent
  else
    { width := stdClamp framebufferWidth capabilities.minImageExtent.width
        capabilities.maxImageExtent.width,
      height := stdClamp framebufferHeight capabilities.minImageExtent.height
        capabilities.maxImageExtent.height }

/-- Embeds the image-count selection in `createSwapChain` (main.cpp:806-809):
one more than the minimum, clamped to the maximum when the maximum is nonzero. -/
def swapChainImageCount (capabilities : SurfaceCapabilities) : Nat :=
  let imageCount := capabilities.minImageCount + 1
  if capabilities.maxImageCount > 0 ∧ imageCount > capabilities.maxImageCount then
    capabilities.maxImageCount
  else
    imageCount

/-! ## Claim theorems for the transition engine and swapchain parameters -/

/-- C1: for the three supported (oldLayout, newLayout) pairs
`transitionImageLayout` performs exactly one submission holding exactly one
barrier carrying the documented {srcAccessMask, dstAccessMask, srcStage,
dstStage} tuple for that pair, scoped to all `mipLevels` levels; for every
other pair it fails with the fatal "unsupported layout transition!" error and
performs no GPU submission (the C++ throws before the barrier is recorded and
before the one-shot submit). -/
theorem transitionImageLayout_supported_exact_unsupported_fatal
    (format : VkFormat) (oldLayout newLayout : VkImageLayout) (mipLevels : Nat) :
    transitionImageLayout format oldLayout newLayout mipLevels =
      (if supportedTransition oldLayout newLayout then
        Except.ok [⟨[GpuCmd.pipelineBarrier
          (documentedMasks oldLayout newLayout).srcStage
          (documentedMasks oldLayout newLayout).dstStage
          ⟨oldLayout, newLayout, transitionAspectMask format newLayout, 0, mipLevels,
            (documentedMasks oldLayout newLayout).srcAccessMask,
            (documentedMasks oldLayout newLayout).dstAccessMask⟩]⟩]
      else
        Except.error "unsupported layout transition!") := by
  cases oldLayout <;> cases newLayout <;> rfl

/-- C7: `chooseSwapExtent` returns the surface's current extent whenever its
width is not the 0xFFFFFFFF sentinel; with the sentinel set it clamps the
framebuffer size component-wise into [minImageExtent, maxImageExtent]; and in
the concrete scenario (sentinel extent, 1280x720 framebuffer, bounds
[1,1]-[4096,4096]) it returns exactly 1280x720. -/
theorem chooseSwapExtent_spec (caps caps' : SurfaceCapabilities)
    (framebufferWidth framebufferHeight : Nat)
    (hne : caps.currentExtent.width ≠ UINT32_MAX)
    (hse : caps'.currentExtent.width = UINT32_MAX)
    (hw : caps'.minImageExtent.width ≤ caps'.maxImageExtent.width)
    (hh : caps'.minImageExtent.height ≤ caps'.maxImageExtent.height) :
    chooseSwapExtent caps framebufferWidth framebufferHeight = caps.currentExtent ∧
    chooseSwapExtent caps' framebufferWidth framebufferHeight =
      ⟨min (max framebufferWidth caps'.minImageExtent.width) caps'.maxImageExtent.width,
        min (max framebufferHeight caps'.minImageExtent.height) caps'.maxImageExtent.height⟩ ∧
    chooseSwapExtent ⟨⟨UINT32_MAX, UINT32_MAX⟩, ⟨1, 1⟩, ⟨4096, 4096⟩, 2, 0⟩ 1280 720 =
      ⟨1280, 720⟩ := by
  refine ⟨by simp [chooseSwapExtent, hne], ?_, by decide⟩
  simp only [chooseSwapExtent, hse, ne_eq, not_true_eq_false, if_false, stdClamp]
  congr 1 <;> · simp only [Nat.max_def, Nat.min_def]; split_ifs <;> omega

/-- Witness for C7 at concrete capabilities: a fixed-extent surface and the
scenario-A unconstrained surface. -/
theorem chooseSwapExtent_spec_witness :
    chooseSwapExtent ⟨⟨800, 600⟩, ⟨1, 1⟩, ⟨4096, 4096⟩, 2, 3⟩ 1280 720 = ⟨800, 600⟩ ∧
    chooseSwapExtent ⟨⟨UINT32_MAX, UINT32_MAX⟩, ⟨1, 1⟩, ⟨4096, 4096⟩, 2, 0⟩ 1280 720 =
      ⟨min (max 1280 1) 4096, min (max 720 1) 4096⟩ ∧
    chooseSwapExtent ⟨⟨UINT32_MAX, UINT32_MAX⟩, ⟨1, 1⟩, ⟨4096, 4096⟩, 2, 0⟩ 1280 720 =
      ⟨1280, 720⟩ :=
  chooseSwapExtent_spec ⟨⟨800, 600⟩, ⟨1, 1⟩, ⟨4096, 4096⟩, 2, 3⟩
    ⟨⟨UINT32_MAX, UINT32_MAX⟩, ⟨1, 1⟩, ⟨4096, 4096⟩, 2, 0⟩ 1280 720
    (by decide) (by decide) (by decide) (by decide)

/-- C8: the requested swapchain image count equals `minImageCount + 1` clamped
to `maxImageCount` when the latter is nonzero (zero meaning unbounded), and in
particular `minImageCount = 2`, `maxImageCount = 0` yields exactly 3. -/
theorem swapChainImageCount_spec (caps : SurfaceCapabilities) :
    swapChainImageCount caps =
      (if caps.maxImageCount = 0 then caps.minImageCount + 1
       else min (caps.minImageCount + 1) caps.maxImageCount) ∧
    swapChainImageCount ⟨⟨0, 0⟩, ⟨0, 0⟩, ⟨0, 0⟩, 2, 0⟩ = 3 := by
  refine ⟨?_, by decide⟩
  simp only [swapChainImageCount]
  split <;> split <;> omega

/-! ## Device Context (`findQueueFamilies`, `pickPhysicalDevice`, main.cpp:547-616) -/

inductive VkPhysicalDeviceType where
  | discreteGpu
  | integratedGpu
  | virtualGpu
  | cpu
  | other
  deriving DecidableEq, Repr

structure QueueFamily where
  graphicsBit : Bool
  presentSupport : Bool
  deriving DecidableEq, Repr

/-- One enumerated physical device together with the per-device query results
`pickPhysicalDevice` consults.  `surfaceFormats` and `presentModes` carry the
lengths of the queried lists (the code only tests them for emptiness). -/
structure PhysicalDevice where
  deviceType : VkPhysicalDeviceType
  geometryShader : Bool
  samplerAnisotropy : Bool
  queueFamilies : List QueueFamily
  extensions : List String
  surfaceFormats : Nat
  presentModes : Nat
  deriving DecidableEq, Repr

structure QueueFamilyIndices where
  graphicsFamily : Option Nat
  presentFamily : Option Nat
  deriving DecidableEq, Repr

def QueueFamilyIndices.isComplete (indices : QueueFamilyIndices) : Bool :=
  indices.graphicsFamily.isSome && indices.presentFamily.isSome

/-- Loop body of `findQueueFamilies`: record the index of any family with the
graphics bit and of any family that can present, breaking early once both are
found. -/
def findQueueFamiliesAux (indices : QueueFamilyIndices) (i : Nat) :
    List QueueFamily → QueueFamilyIndices
  | [] => indices
  | queueFamily :: rest =>
    let indices :=
      if queueFamily.graphicsBit then { indices with graphicsFamily := some i } else indices
    let indices :=
      if queueFamily.presentSupport then { indices with presentFamily := some i } else indices
    if indices.isComplete then indices else findQueueFamiliesAux indices (i + 1) rest

/-- Embeds `findQueueFamilies` (main.cpp:547-576). -/
def findQueueFamilies (device : PhysicalDevice) : QueueFamilyIndices :=
  findQueueFamiliesAux ⟨none, none⟩ 0 device.queueFamilies

def deviceExtensions : List String := ["VK_KHR_swapchain"]

/-- Embeds `checkDeviceExtensionSupport` (main.cpp:683-700): counts how many
required extensions occur in the device's available-extension list and compares
against the number of required extensions. -/
def checkDeviceExtensionSupport (device : PhysicalDevice) : Bool :=
  deviceExtensions.countP
    (fun requiredExtension => device.extensions.any (fun a => a == requiredExtension)) ==
  deviceExtensions.length

/-- Embeds the `isDeviceSuitable` condition inside `pickPhysicalDevice`
(main.cpp:601-606): discrete GPU, geometry shader, sampler anisotropy, complete
queue families, required extensions, and non-empty surface format and present
mode lists. -/
def isDeviceSuitable (device : PhysicalDevice) : Bool :=
  device.deviceType == VkPhysicalDeviceType.discreteGpu &&
  device.geometryShader &&
  device.samplerAnisotropy &&
  (findQueueFamilies device).isComplete &&
  checkDeviceExtensionSupport device &&
  (!(device.surfaceFormats == 0) && !(device.presentModes == 0))

/-- Embeds `pickPhysicalDevice` (main.cpp:580-616): error when no devices are
enumerated, otherwise pick the first suitable device, erroring when none is
suitable. -/
def pickPhysicalDevice (devices : List PhysicalDevice) : Except String PhysicalDevice :=
  if devices.length = 0 then
    Except.error "failed to find GPUs with Vulkan support!"
  else
    match devices.find? isDeviceSuitable with
    | some device => Except.ok device
    | none => Except.error "failed to find a suitable GPU!"

/-- Modelled from the spec: the selection criteria exactly as the claim lists
them — discrete GPU, a graphics-capable queue family, a present-capable queue
family, required extensions, non-empty surface format and present-mode lists,
and anisotropic sampling.  The claim does not require geometry shader support. -/
def claimSuitable (device : PhysicalDevice) : Bool :=
  device.deviceType == VkPhysicalDeviceType.discreteGpu &&
  device.queueFamilies.any (fun qf => qf.graphicsBit) &&
  device.queueFamilies.any (fun qf => qf.presentSupport) &&
  deviceExtensions.all (fun e => device.extensions.any (fun a => a == e)) &&
  !(device.surfaceFormats == 0) &&
  !(device.presentModes == 0) &&
  device.samplerAnisotropy

/-- The amended criteria: the claim's criteria plus geometry shader support,
which `isDeviceSuitable` also checks. -/
def amendedSuitable (device : PhysicalDevice) : Bool :=
  claimSuitable device && device.geometryShader

/-- A device meeting every criterion of the claim except that it lacks
geometry shader support. -/
def noGeometryDevice : PhysicalDevice :=
  ⟨VkPhysicalDeviceType.discreteGpu, false, true, [⟨true, true⟩], ["VK_KHR_swapchain"], 1, 1⟩

/-- C9 counterexample: `noGeometryDevice` satisfies every criterion the claim
lists, yet `pickPhysicalDevice` does not select it and fails fatally — the code
additionally requires geometry shader support (`deviceFeatures.geometryShader`),
which the claim omits. -/
theorem pickPhysicalDevice_claim_counterexample :
    claimSuitable noGeometryDevice = true ∧
    pickPhysicalDevice [noGeometryDevice] = Except.error "failed to find a suitable GPU!" := by
  constructor <;> rfl

/-- The early-break accumulator loop of `findQueueFamilies` finds a graphics
family and a present family exactly when ones exist among the remaining
families or were already recorded. -/
theorem findQueueFamiliesAux_isComplete (fams : List QueueFamily)
    (indices : QueueFamilyIndices) (i : Nat) :
    (findQueueFamiliesAux indices i fams).isComplete =
      ((indices.graphicsFamily.isSome || fams.any (fun qf => qf.graphicsBit)) &&
       (indices.presentFamily.isSome || fams.any (fun qf => qf.presentSupport))) := by
  induction fams generalizing indices i with
  | nil => simp [findQueueFamiliesAux, QueueFamilyIndices.isComplete]
  | cons qf rest ih =>
    simp only [findQueueFamiliesAux, List.any_cons]
    rcases indices with ⟨g, p⟩
    cases hg : qf.graphicsBit <;> cases hp : qf.presentSupport <;>
      simp only [hg, hp, if_true, if_false, Bool.false_or, Bool.true_or] <;>
      cases g <;> cases p <;>
        simp_all [QueueFamilyIndices.isComplete, findQueueFamiliesAux, ih, Bool.or_comm,
          Bool.or_assoc, Bool.and_comm, Bool.and_assoc]

/-- The source's suitability test agrees with the amended claim criteria. -/
theorem isDeviceSuitable_eq_amendedSuitable (device : PhysicalDevice) :
    isDeviceSuitable device = amendedSuitable device := by
  have h := findQueueFamiliesAux_isComplete device.queueFamilies ⟨none, none⟩ 0
  have hext : checkDeviceExtensionSupport device =
      deviceExtensions.all (fun e => device.extensions.any (fun a => a == e)) := by
    simp only [checkDeviceExtensionSupport, deviceExtensions, List.countP_cons,
      List.countP_nil, List.length_cons, List.length_nil, List.all_cons, List.all_nil,
      Bool.and_true]
    cases hfound : device.extensions.any (fun a => a == "VK_KHR_swapchain") <;>
      simp [hfound]
  rw [Bool.eq_iff_iff]
  simp only [isDeviceSuitable, amendedSuitable, claimSuitable, findQueueFamilies, h, hext,
    Option.isSome_none, Bool.false_or, Bool.and_eq_true, Bool.or_eq_true]
  tauto

/-- C9 amended: `pickPhysicalDevice` selects the first device satisfying the
claim's criteria plus geometry shader support, and fails fatally (an `Except`
error propagated to the caller) when no enumerated device satisfies them, or
when no device is enumerated at all. -/
theorem pickPhysicalDevice_amended (devices : List PhysicalDevice) :
    pickPhysicalDevice devices =
      (if devices.length = 0 then
        Except.error "failed to find GPUs with Vulkan support!"
      else
        match devices.find? amendedSuitable with
        | some device => Except.ok device
        | none => Except.error "failed to find a suitable GPU!") := by
  have hfun : isDeviceSuitable = amendedSuitable :=
    funext isDeviceSuitable_eq_amendedSuitable
  rw [pickPhysicalDevice, hfun]

/-! ## Model loading (`loadModel`, main.cpp:2547-2582)

Scalars are modelled as `ℤ`: `loadModel` performs no arithmetic on the float
attributes other than the texture-coordinate flip `1 - t` and compares resolved
vertices only by exact component equality, so an exact scalar type represents
the behaviour faithfully. -/

structure Vertex where
  pos : ℤ × ℤ × ℤ
  color : ℤ × ℤ × ℤ
  texCoord : ℤ × ℤ
  deriving DecidableEq, Repr

structure ObjIndex where
  vertex_index : Nat
  texcoord_index : Nat
  deriving DecidableEq, Repr

structure ObjAttrib where
  vertices : List ℤ
  texcoords : List ℤ
  deriving DecidableEq, Repr

structure ObjShape where
  indices : List ObjIndex
  deriving DecidableEq, Repr

def attribGet (l : List ℤ) (i : Nat) : ℤ := l.getD i 0

/-- Embeds the per-index vertex construction inside the `loadModel` loop:
position from the flat `attrib.vertices` array, texture coordinate with the
vertical flip `1 - t`, and the constant white color. -/
def resolveVertex (attrib : ObjAttrib) (index : ObjIndex) : Vertex :=
  { pos := (attribGet attrib.vertices (3 * index.vertex_index + 0),
            attribGet attrib.vertices (3 * index.vertex_index + 1),
            attribGet attrib.vertices (3 * index.vertex_index + 2)),
    color := (1, 1, 1),
    texCoord := (attribGet attrib.texcoords (2 * index.texcoord_index + 0),
                 1 - attribGet attrib.texcoords (2 * index.texcoord_index + 1)) }

/-- The mutable state of `loadModel`: the `uniqueVertices` unordered map
(modelled as an association list), the `vertices` member and the `indices`
member. -/
structure ModelData where
  uniqueVertices : List (Vertex × Nat)
  vertices : List Vertex
  indices : List Nat
  deriving DecidableEq, Repr

def mapLookup (m : List (Vertex × Nat)) (v : Vertex) : Option Nat :=
  (m.find? (fun p => p.1 == v)).map (fun p => p.2)

/-- Embeds the body of the `loadModel` loop (main.cpp:2552-2580) for one
resolved vertex: conditionally record a first-seen vertex in the map and push
it, then unconditionally push the vertex again and append its mapped index. -/
def loadModelVertex (st : ModelData) (vertex : Vertex) : ModelData :=
  let st1 :=
    if mapLookup st.uniqueVertices vertex = none then
      { st with uniqueVertices := (vertex, st.vertices.length) :: st.uniqueVertices,
                vertices := st.vertices ++ [vertex] }
    else st
  { st1 with vertices := st1.vertices ++ [vertex],
             indices := st1.indices ++ [(mapLookup st1.uniqueVertices vertex).getD 0] }

/-- Embeds `loadModel` (main.cpp:2547-2582): fold the loop body over all face
indices of all shapes, starting from empty containers. -/
def loadModel (attrib : ObjAttrib) (shapes : List ObjShape) : ModelData :=
  shapes.foldl
    (fun st shape =>
      shape.indices.foldl (fun st index => loadModelVertex st (resolveVertex attrib index)) st)
    ⟨[], [], []⟩

/-- A one-triangle-corner model whose face refers to the same
(position, color, texcoord) tuple twice — a model input with duplicate tuples. -/
def dupShape : ObjShape := ⟨[⟨0, 0⟩, ⟨0, 0⟩]⟩

def dupAttrib : ObjAttrib := ⟨[0, 0, 0], [0, 0]⟩

def dupVertex : Vertex := ⟨(0, 0, 0), (1, 1, 1), (0, 1)⟩

/-- C3: evaluating `loadModel` at a model input with duplicate tuples.  The
first-seen conditional push is followed by an unconditional push on every
iteration, so the produced vertex array contains the same tuple three times
and is not duplicate-free, contradicting the claimed deduplication.  (The
index entries do remain valid positions referencing the first copy.) -/
theorem loadModel_vertices_not_deduplicated :
    loadModel dupAttrib [dupShape] =
      ⟨[(dupVertex, 0)], [dupVertex, dupVertex, dupVertex], [0, 0]⟩ ∧
    ¬ (loadModel dupAttrib [dupShape]).vertices.Nodup := by
  constructor
  · rfl
  · decide

/-! ## Mipmap generation (`createTextureImage` mip count, `generateMipmaps`) -/

/-- Embeds the mip level count computed in `createTextureImage`
(main.cpp:2075): `floor(log2(max(texWidth, texHeight))) + 1`.  For the positive
integer dimensions involved, `Nat.log 2` is exactly the floor of the base-2
logarithm the double-precision expression computes. -/
def mipLevelsFor (texWidth texHeight : Nat) : Nat :=
  Nat.log 2 (max texWidth texHeight) + 1

/-- One `vkCmdBlitImage` recorded by `generateMipmaps`: source mip level and
extent, destination mip level and extent. -/
structure Blit where
  srcLevel : Nat
  dstLevel : Nat
  srcW : Nat
  srcH : Nat
  dstW : Nat
  dstH : Nat
  deriving DecidableEq, Repr

/-- The `for (i = 1; i < mipLevels; ++i)` loop of `generateMipmaps`
(main.cpp:2630-2687), carrying the remaining iteration count, the level
counter `i` and the running `mipWidth`/`mipHeight`.  The destination extent is
`mipWidth > 1 ? mipWidth / 2 : 1` per axis, and the running dimensions are
halved only while above 1, exactly as in the source. -/
def genMipBlitsAux : Nat → Nat → Nat → Nat → List Blit
  | 0, _, _, _ => []
  | k + 1, i, mipWidth, mipHeight =>
    ⟨i - 1, i, mipWidth, mipHeight,
      if mipWidth > 1 then mipWidth / 2 else 1,
      if mipHeight > 1 then mipHeight / 2 else 1⟩ ::
    genMipBlitsAux k (i + 1)
      (if mipWidth > 1 then mipWidth / 2 else mipWidth)
      (if mipHeight > 1 then mipHeight / 2 else mipHeight)

/-- Embeds the blit sequence of `generateMipmaps` (main.cpp:2585-2687): one
blit per level `1 .. mipLevels - 1`. -/
def generateMipmapBlits (texWidth texHeight mipLevels : Nat) : List Blit :=
  genMipBlitsAux (mipLevels - 1) 1 texWidth texHeight

theorem genMipBlitsAux_length (k i w h : Nat) :
    (genMipBlitsAux k i w h).length = k := by
  induction k generalizing i w h with
  | zero => rfl
  | succ k ih => simp [genMipBlitsAux, ih]

theorem genMipBlitsAux_halving (k i w h : Nat) (hw : 1 ≤ w) (hh : 1 ≤ h) :
    ∀ b ∈ genMipBlitsAux k i w h,
      b.dstW = max (b.srcW / 2) 1 ∧ b.dstH = max (b.srcH / 2) 1 := by
  induction k generalizing i w h with
  | zero => simp [genMipBlitsAux]
  | succ k ih =>
    intro b hb
    simp only [genMipBlitsAux, List.mem_cons] at hb
    rcases hb with hb | hb
    · subst hb
      constructor <;> · simp only [Nat.max_def]; split_ifs <;> omega
    · exact ih (i + 1) _ _ (by split_ifs <;> omega) (by split_ifs <;> omega) b hb

theorem genMipBlitsAux_head_src (k i w h : Nat) :
    ∀ b ∈ (genMipBlitsAux k i w h).head?, b.srcW = w ∧ b.srcH = h := by
  cases k <;> simp [genMipBlitsAux]

theorem genMipBlitsAux_chain (k i w h : Nat) (hw : 1 ≤ w) (hh : 1 ≤ h) :
    List.Chain' (fun b1 b2 => b2.srcW = b1.dstW ∧ b2.srcH = b1.dstH)
      (genMipBlitsAux k i w h) := by
  induction k generalizing i w h with
  | zero => simp [genMipBlitsAux]
  | succ k ih =>
    rw [genMipBlitsAux, List.chain'_cons']
    refine ⟨?_, ih (i + 1) _ _ (by split_ifs <;> omega) (by split_ifs <;> omega)⟩
    intro b hb
    have hsrc := genMipBlitsAux_head_src k (i + 1)
      (if w > 1 then w / 2 else w) (if h > 1 then h / 2 else h) b hb
    refine ⟨?_, ?_⟩
    · rw [hsrc.1]
      show (if w > 1 then w / 2 else w) = (if w > 1 then w / 2 else 1)
      split_ifs <;> omega
    · rw [hsrc.2]
      show (if h > 1 then h / 2 else h) = (if h > 1 then h / 2 else 1)
      split_ifs <;> omega

/-- C6: for dimensions W, H >= 1 the computed mip level count satisfies
`2 ^ (count - 1) <= max W H < 2 ^ count`, i.e. it equals
`floor(log2(max(W, H))) + 1`; and in `generateMipmaps` every recorded blit's
destination extent is `max(src / 2, 1)` per axis, consecutive blits chain the
dimensions (each level's source extent is the previous level's destination
extent), and there is one blit per level `1 .. mipLevels - 1`. -/
theorem mipmaps_level_count_and_halving (texWidth texHeight mipLevels : Nat)
    (hw : 1 ≤ texWidth) (hh : 1 ≤ texHeight) :
    2 ^ (mipLevelsFor texWidth texHeight - 1) ≤ max texWidth texHeight ∧
    max texWidth texHeight < 2 ^ mipLevelsFor texWidth texHeight ∧
    (∀ b ∈ generateMipmapBlits texWidth texHeight mipLevels,
      b.dstW = max (b.srcW / 2) 1 ∧ b.dstH = max (b.srcH / 2) 1) ∧
    List.Chain' (fun b1 b2 => b2.srcW = b1.dstW ∧ b2.srcH = b1.dstH)
      (generateMipmapBlits texWidth texHeight mipLevels) ∧
    (generateMipmapBlits texWidth texHeight mipLevels).length = mipLevels - 1 := by
  have hmax : max texWidth texHeight ≠ 0 := by omega
  refine ⟨?_, ?_, ?_, ?_, ?_⟩
  · simpa [mipLevelsFor] using Nat.pow_log_le_self 2 hmax
  · simpa [mipLevelsFor, Nat.succ_eq_add_one] using
      Nat.lt_pow_succ_log_self (by norm_num) (max texWidth texHeight)
  · exact genMipBlitsAux_halving (mipLevels - 1) 1 texWidth texHeight hw hh
  · exact genMipBlitsAux_chain (mipLevels - 1) 1 texWidth texHeight hw hh
  · exact genMipBlitsAux_length (mipLevels - 1) 1 texWidth texHeight

/-- Witness for C6 at a concrete 13x7 texture (mip level count 4). -/
theorem mipmaps_level_count_and_halving_witness :
    1 ≤ 13 ∧ 1 ≤ 7 ∧
    (2 ^ (mipLevelsFor 13 7 - 1) ≤ max 13 7 ∧
     max 13 7 < 2 ^ mipLevelsFor 13 7 ∧
     (∀ b ∈ generateMipmapBlits 13 7 (mipLevelsFor 13 7),
       b.dstW = max (b.srcW / 2) 1 ∧ b.dstH = max (b.srcH / 2) 1) ∧
     List.Chain' (fun b1 b2 => b2.srcW = b1.dstW ∧ b2.srcH = b1.dstH)
       (generateMipmapBlits 13 7 (mipLevelsFor 13 7)) ∧
     (generateMipmapBlits 13 7 (mipLevelsFor 13 7)).length = mipLevelsFor 13 7 - 1) :=
  ⟨by decide, by decide,
    mipmaps_level_count_and_halving 13 7 (mipLevelsFor 13 7) (by decide) (by decide)⟩

/-! ## Frame Scheduler (`createSyncObjects`, `drawFrame`, main.cpp:1491-1609)

`drawFrame` is embedded as a step function from the mutable frame state and
the per-frame environment results (the values returned by
`vkAcquireNextImageKHR`, `vkQueueSubmit` and `vkQueuePresentKHR`) to the list
of host-observable calls the function performs, in source order, together with
the next state (`Except.error` when a C++ `throw` aborts the frame). -/

inductive VkResult where
  | success
  | suboptimalKHR
  | errorOutOfDateKHR
  | otherError (code : Int)
  deriving DecidableEq, Repr

inductive Ev where
  | waitFence (slot : Nat)
  | acquireNextImage (slot : Nat)
  | recreateSwapchain
  | updateUniform (slot : Nat)
  | resetFence (slot : Nat)
  | resetCommandBuffer (slot : Nat)
  | recordCommandBuffer (slot : Nat) (imageIndex : Nat)
  | queueSubmit (slot : Nat)
  | queuePresent (imageIndex : Nat)
  deriving DecidableEq, Repr

/-- The frame-slot index an event operates on, when it operates on one. -/
def Ev.slotIdx : Ev → Option Nat
  | Ev.waitFence s => some s
  | Ev.acquireNextImage s => some s
  | Ev.recreateSwapchain => none
  | Ev.updateUniform s => some s
  | Ev.resetFence s => some s
  | Ev.resetCommandBuffer s => some s
  | Ev.recordCommandBuffer s _ => some s
  | Ev.queueSubmit s => some s
  | Ev.queuePresent _ => none

structure FrameState where
  currentFrame : Nat
  framebufferResized : Bool
  deriving DecidableEq, Repr

/-- Initial state: `currentFrame = 0` (main.cpp:2801), resize flag clear
(main.cpp:2802); `createSyncObjects` creates every in-flight fence signaled
(VK_FENCE_CREATE_SIGNALED_BIT, main.cpp:1504). -/
def initialFrameState : FrameState := ⟨0, false⟩

structure FrameInput where
  acquireResult : VkResult
  imageIndex : Nat
  submitOk : Bool
  presentResult : VkResult
  deriving DecidableEq, Repr

/-- Embeds `drawFrame` (main.cpp:1516-1609). -/
def drawFrame (st : FrameState) (inp : FrameInput) : List Ev × Except String FrameState :=
  let cf := st.currentFrame
  let evs := [Ev.waitFence cf, Ev.acquireNextImage cf]
  if inp.acquireResult = VkResult.errorOutOfDateKHR then
    (evs ++ [Ev.recreateSwapchain], Except.ok st)
  else if inp.acquireResult ≠ VkResult.success ∧ inp.acquireResult ≠ VkResult.suboptimalKHR then
    (evs, Except.error "failed to acquire swap chain image!")
  else
    let evs := evs ++ [Ev.updateUniform cf, Ev.resetFence cf,
      Ev.resetCommandBuffer cf, Ev.recordCommandBuffer cf inp.imageIndex]
    if ¬ inp.submitOk then
      (evs, Except.error "failed to submit draw command buffer!")
    else
      let evs := evs ++ [Ev.queueSubmit cf, Ev.queuePresent inp.imageIndex]
      if inp.presentResult = VkResult.errorOutOfDateKHR ∨
          inp.presentResult = VkResult.suboptimalKHR ∨ st.framebufferResized then
        (evs ++ [Ev.recreateSwapchain],
          Except.ok ⟨(cf + 1) % MAX_FRAMES_IN_FLIGHT, false⟩)
      else if inp.presentResult ≠ VkResult.success then
        (evs, Except.error "failed to present swap chain image!")
      else
        (evs, Except.ok ⟨(cf + 1) % MAX_FRAMES_IN_FLIGHT, st.framebufferResized⟩)

/-- The render loop: run `drawFrame` on each environment input in turn,
stopping at the first throw; returns the concatenated event trace. -/
def runFrames : FrameState → List FrameInput → List Ev × Except String FrameState
  | st, [] => ([], Except.ok st)
  | st, inp :: rest =>
    match drawFrame st inp with
    | (evs, Except.error e) => (evs, Except.error e)
    | (evs, Except.ok st') =>
      let (evs', r) := runFrames st' rest
      (evs ++ evs', r)

/-! Instrumentation for the fence discipline: per slot `f`, `waited` tracks
whether the host has observed slot `f`'s fence signaled (a `waitFence f`
returned) with no new submission on `f` since.  Resetting slot `f`'s command
buffer is legal only while `waited` holds. -/

def slotStep (f : Nat) (waited : Bool) : Ev → Bool
  | Ev.waitFence g => if g = f then true else waited
  | Ev.queueSubmit g => if g = f then false else waited
  | _ => waited

def wbrOk (f : Nat) (waited : Bool) : List Ev → Bool
  | [] => true
  | e :: rest =>
    (match e with
     | Ev.resetCommandBuffer g => decide (g ≠ f) || waited
     | _ => true) && wbrOk f (slotStep f waited e) rest

theorem wbrOk_append (f : Nat) (waited : Bool) (a b : List Ev) :
    wbrOk f waited (a ++ b) =
      (wbrOk f waited a && wbrOk f (a.foldl (slotStep f) waited) b) := by
  induction a generalizing waited with
  | nil => simp [wbrOk]
  | cons e rest ih =>
    simp only [List.cons_append, wbrOk, List.foldl_cons, List.append_eq, ih, Bool.and_assoc]

/-- Every single `drawFrame` trace satisfies the wait-before-reset discipline
from any starting instrumentation state: the wait at the top of the frame
precedes the slot's command-buffer reset, and no submission on the slot occurs
in between. -/
theorem drawFrame_wbrOk (st : FrameState) (inp : FrameInput) (f : Nat) (waited : Bool) :
    wbrOk f waited (drawFrame st inp).1 = true := by
  rcases inp with ⟨acq, ii, sub, pres⟩
  by_cases hcf : st.currentFrame = f <;>
    simp [drawFrame, wbrOk, slotStep, hcf] <;>
    split_ifs <;>
    simp [wbrOk, slotStep, hcf]

theorem runFrames_wbrOk (inputs : List FrameInput) (st : FrameState) (f : Nat) (waited : Bool) :
    wbrOk f waited (runFrames st inputs).1 = true := by
  induction inputs generalizing st waited with
  | nil => rfl
  | cons inp rest ih =>
    have hevs := drawFrame_wbrOk st inp f waited
    rcases hdf : drawFrame st inp with ⟨evs, r⟩
    rw [hdf] at hevs
    rcases r with e | st'
    · simp only [runFrames, hdf]
      exact hevs
    · rcases hrun : runFrames st' rest with ⟨evs', r'⟩
      have htail := ih st' (evs.foldl (slotStep f) waited)
      rw [hrun] at htail
      simp only [runFrames, hdf, hrun, wbrOk_append, hevs, htail, Bool.and_self]

/-- C2: for every sequence of environment inputs, the full event trace of the
render loop from the initial state (all fences created signaled) satisfies the
fence discipline on every slot: a slot's command buffer is reset only after a
wait on that slot's in-flight fence has been observed, with no intervening
submission on that slot — the wait at the top of `drawFrame` happens before
the reset of the same slot's command buffer, across arbitrarily many frames. -/
theorem drawFrame_wait_before_reset (inputs : List FrameInput) (f : Nat) :
    wbrOk f false (runFrames initialFrameState inputs).1 = true :=
  runFrames_wbrOk inputs initialFrameState f false

/-- C4: when image acquisition reports the surface out of date, `drawFrame`
waits, acquires, triggers swapchain recreation and aborts the frame: the trace
holds no command-buffer reset or recording, no fence reset, no submission and
no present, and the state — including `currentFrame` and hence the slot's
signaled fence — is unchanged.  For an acquisition result other than success,
suboptimal, or out-of-date, `drawFrame` throws fatally. -/
theorem drawFrame_acquire_out_of_date (st : FrameState) (imageIndex : Nat)
    (submitOk : Bool) (presentResult : VkResult) (code : Int) :
    drawFrame st ⟨VkResult.errorOutOfDateKHR, imageIndex, submitOk, presentResult⟩ =
      ([Ev.waitFence st.currentFrame, Ev.acquireNextImage st.currentFrame,
        Ev.recreateSwapchain], Except.ok st) ∧
    drawFrame st ⟨VkResult.otherError code, imageIndex, submitOk, presentResult⟩ =
      ([Ev.waitFence st.currentFrame, Ev.acquireNextImage st.currentFrame],
        Except.error "failed to acquire swap chain image!") := by
  constructor <;> simp [drawFrame]

/-- C5: when the present call returns suboptimal (acquisition and submission
having succeeded), swapchain recreation is invoked exactly once, as the last
call after the present is attempted, and the frame is not dropped:
`currentFrame` advances by one modulo `MAX_FRAMES_IN_FLIGHT`.  Stated for both
successful acquisition results (success and suboptimal). -/
theorem drawFrame_present_suboptimal (st : FrameState) (imageIndex : Nat) :
    drawFrame st ⟨VkResult.success, imageIndex, true, VkResult.suboptimalKHR⟩ =
      ([Ev.waitFence st.currentFrame, Ev.acquireNextImage st.currentFrame,
        Ev.updateUniform st.currentFrame, Ev.resetFence st.currentFrame,
        Ev.resetCommandBuffer st.currentFrame,
        Ev.recordCommandBuffer st.currentFrame imageIndex,
        Ev.queueSubmit st.currentFrame, Ev.queuePresent imageIndex,
        Ev.recreateSwapchain],
        Except.ok ⟨(st.currentFrame + 1) % MAX_FRAMES_IN_FLIGHT, false⟩) ∧
    drawFrame st ⟨VkResult.suboptimalKHR, imageIndex, true, VkResult.suboptimalKHR⟩ =
      ([Ev.waitFence st.currentFrame, Ev.acquireNextImage st.currentFrame,
        Ev.updateUniform st.currentFrame, Ev.resetFence st.currentFrame,
        Ev.resetCommandBuffer st.currentFrame,
        Ev.recordCommandBuffer st.currentFrame imageIndex,
        Ev.queueSubmit st.currentFrame, Ev.queuePresent imageIndex,
        Ev.recreateSwapchain],
        Except.ok ⟨(st.currentFrame + 1) % MAX_FRAMES_IN_FLIGHT, false⟩) ∧
    (drawFrame st ⟨VkResult.success, imageIndex, true, VkResult.suboptimalKHR⟩).1.count
      Ev.recreateSwapchain = 1 := by
  refine ⟨by simp [drawFrame], by simp [drawFrame], ?_⟩
  simp [drawFrame, List.count_cons, List.count_nil]

/-- Every event of a `drawFrame` trace that addresses a frame-slot array
addresses the slot `drawFrame` ran for. -/
theorem drawFrame_event_slots (st : FrameState) (inp : FrameInput) :
    ∀ e ∈ (drawFrame st inp).1, ∀ s, Ev.slotIdx e = some s → s = st.currentFrame := by
  simp only [drawFrame]
  split_ifs <;> simp [Ev.slotIdx]

/-- C10: whenever `drawFrame` completes without throwing and starts from an
in-range slot index, the new `currentFrame` either is unchanged (exactly the
acquire-out-of-date abort path) or advances by one modulo
`MAX_FRAMES_IN_FLIGHT`; it stays in range, and every frame-slot array index
appearing in the trace (fences, semaphores, command buffers, uniform buffers,
descriptor sets) is in range. -/
theorem drawFrame_currentFrame_invariant (st st' : FrameState) (inp : FrameInput)
    (evs : List Ev) (h : drawFrame st inp = (evs, Except.ok st'))
    (hlt : st.currentFrame < MAX_FRAMES_IN_FLIGHT) :
    ((inp.acquireResult = VkResult.errorOutOfDateKHR ∧
        st'.currentFrame = st.currentFrame) ∨
      st'.currentFrame = (st.currentFrame + 1) % MAX_FRAMES_IN_FLIGHT) ∧
    st'.currentFrame < MAX_FRAMES_IN_FLIGHT ∧
    (∀ e ∈ evs, ∀ s, Ev.slotIdx e = some s → s < MAX_FRAMES_IN_FLIGHT) := by
  have hmod : (st.currentFrame + 1) % MAX_FRAMES_IN_FLIGHT < MAX_FRAMES_IN_FLIGHT :=
    Nat.mod_lt _ (by decide)
  have hslots : ∀ e ∈ evs, ∀ s, Ev.slotIdx e = some s → s = st.currentFrame := by
    have hall := drawFrame_event_slots st inp
    rw [h] at hall
    exact hall
  have hkey : (inp.acquireResult = VkResult.errorOutOfDateKHR ∧ st' = st) ∨
      st'.currentFrame = (st.currentFrame + 1) % MAX_FRAMES_IN_FLIGHT := by
    simp only [drawFrame] at h
    split_ifs at h with h1 h2 h3 h4 h5 <;>
      injection h with he1 he2 <;>
      first
        | exact Except.noConfusion he2
        | (injection he2 with he3
           rw [← he3]
           first
             | exact Or.inl ⟨h1, rfl⟩
             | exact Or.inr rfl)
  refine ⟨?_, ?_, fun e he s hs => by rw [hslots e he s hs]; exact hlt⟩
  · rcases hkey with ⟨ha, rfl⟩ | hcf
    · exact Or.inl ⟨ha, rfl⟩
    · exact Or.inr hcf
  · rcases hkey with ⟨ha, rfl⟩ | hcf
    · exact hlt
    · rw [hcf]
      exact hmod

/-- Witness for C10: one successful frame from the initial state advances the
slot index from 0 to 1. -/
theorem drawFrame_currentFrame_invariant_witness :
    drawFrame ⟨0, false⟩ ⟨VkResult.success, 0, true, VkResult.success⟩ =
      ([Ev.waitFence 0, Ev.acquireNextImage 0, Ev.updateUniform 0, Ev.resetFence 0,
        Ev.resetCommandBuffer 0, Ev.recordCommandBuffer 0 0, Ev.queueSubmit 0,
        Ev.queuePresent 0], Except.ok ⟨1, false⟩) ∧
    ((((⟨VkResult.success, 0, true, VkResult.success⟩ : FrameInput).acquireResult =
          VkResult.errorOutOfDateKHR ∧
        (⟨1, false⟩ : FrameState).currentFrame = (⟨0, false⟩ : FrameState).currentFrame) ∨
      (⟨1, false⟩ : FrameState).currentFrame =
        ((⟨0, false⟩ : FrameState).currentFrame + 1) % MAX_FRAMES_IN_FLIGHT) ∧
      (⟨1, false⟩ : FrameState).currentFrame < MAX_FRAMES_IN_FLIGHT ∧
      (∀ e ∈ [Ev.waitFence 0, Ev.acquireNextImage 0, Ev.updateUniform 0, Ev.resetFence 0,
          Ev.resetCommandBuffer 0, Ev.recordCommandBuffer 0 0, Ev.queueSubmit 0,
          Ev.queuePresent 0], ∀ s, Ev.slotIdx e = some s → s < MAX_FRAMES_IN_FLIGHT)) :=
  ⟨rfl,
    drawFrame_currentFrame_invariant ⟨0, false⟩ ⟨1, false⟩
      ⟨VkResult.success, 0, true, VkResult.success⟩ _ rfl (by decide)⟩

end VulkanTut
